import Mathlib

/-!
Shallow embedding of the Replacement-Fund Ledger
(`Система заявок/replacement_fund_manager.py` together with the two ORM models
`ReplacementFund` and `ReplacementFundMovement` from `models.py`).

Python integers become `Int` (they are unbounded); nullable columns become
`Option`; `datetime.now()` becomes a logical clock `Nat` carried by the store
and advanced on every committed transaction; the autoincrement primary key of
the movements table becomes an explicit counter.  A manager call that opens a
session, mutates the ORM objects and commits is modelled as a pure function
`FundStore → ... → Bool × FundStore`: the `Bool` is the Python return value,
and a `False` return (any early `return False` path) leaves the store
untouched, exactly as rollback of an uncommitted session does.
-/

namespace SD

/-- Row of table `replacement_fund` (`models.py`, class `ReplacementFund`). -/
structure ReplacementFund where
  id : Nat
  item_type : String
  cartridge_type_id : Option Nat
  printer_model_id : Option Nat
  quantity_available : Int
  quantity_reserved : Int
  quantity_actual : Option Int
  last_inventory_date : Option Nat
  company_id : Option Nat
  created_at : Nat
  updated_at : Nat
deriving Repr, DecidableEq

/-- Row of table `replacement_fund_movements` (`models.py`,
class `ReplacementFundMovement`). -/
structure ReplacementFundMovement where
  id : Nat
  fund_item_id : Nat
  movement_type : String
  ticket_id : Option Nat
  quantity : Int
  quantity_before : Option Int
  quantity_after : Option Int
  comment : Option String
  user_id : Nat
  created_at : Nat
deriving Repr, DecidableEq

/-- The shared relational store seen by the manager: the two tables, the
autoincrement counter of the movements table and a logical clock standing for
`datetime.now()`. -/
structure FundStore where
  items : List ReplacementFund
  movements : List ReplacementFundMovement
  next_movement_id : Nat
  clock : Nat
deriving Repr, DecidableEq

/-- `session.query(ReplacementFund).filter(ReplacementFund.id == fund_item_id).first()`. -/
def findItem (items : List ReplacementFund) (fund_item_id : Nat) :
    Option ReplacementFund :=
  items.find? (fun it => it.id == fund_item_id)

/-- Writing the mutated ORM object back: the row whose id matches is replaced. -/
def updateItem (items : List ReplacementFund) (fund_item_id : Nat)
    (v : ReplacementFund) : List ReplacementFund :=
  items.map (fun it => if it.id == fund_item_id then v else it)

/-- The `if/elif` chain of `perform_operation` (lines 101-134): it either
rejects (insufficient balance, or an operation type outside the four known
ones) or yields the mutated fund item.  `none` stands for the early
`return False`. -/
def applyLedgerBranch (fund_item : ReplacementFund) (operation_type : String)
    (quantity : Int) : Option ReplacementFund :=
  if operation_type = "ISSUE" then
    if fund_item.quantity_available < quantity then none
    else some { fund_item with
      quantity_available := fund_item.quantity_available - quantity,
      quantity_reserved := fund_item.quantity_reserved + quantity }
  else if operation_type = "RETURN" then
    if fund_item.quantity_reserved < quantity then none
    else some { fund_item with
      quantity_available := fund_item.quantity_available + quantity,
      quantity_reserved := fund_item.quantity_reserved - quantity }
  else if operation_type = "WRITE_OFF" then
    if fund_item.quantity_available < quantity then none
    else some { fund_item with
      quantity_available := fund_item.quantity_available - quantity }
  else if operation_type = "RECEIVE" then
    some { fund_item with
      quantity_available := fund_item.quantity_available + quantity }
  else none

/-- `ReplacementFundManager.perform_operation` (lines 69-157).  The item is
looked up; a missing item, a failed balance check or an unknown operation
type returns `False` with the store untouched; otherwise the item is
mutated, `updated_at` refreshed, one movement row appended (its
`quantity_before`/`quantity_after` columns stay NULL for these four
operation types) and the transaction committed. -/
def perform_operation (st : FundStore) (fund_item_id : Nat)
    (operation_type : String) (quantity : Int) (user_id : Nat)
    (ticket_id : Option Nat) (comment : Option String) : Bool × FundStore :=
  match findItem st.items fund_item_id with
  | none => (false, st)
  | some fund_item =>
    match applyLedgerBranch fund_item operation_type quantity with
    | none => (false, st)
    | some mutated =>
      let mutated2 := { mutated with updated_at := st.clock }
      let movement : ReplacementFundMovement :=
        { id := st.next_movement_id,
          fund_item_id := fund_item_id,
          movement_type := operation_type,
          ticket_id := ticket_id,
          quantity := quantity,
          quantity_before := none,
          quantity_after := none,
          comment := comment,
          user_id := user_id,
          created_at := st.clock }
      (true,
        { items := updateItem st.items fund_item_id mutated2,
          movements := st.movements ++ [movement],
          next_movement_id := st.next_movement_id + 1,
          clock := st.clock + 1 })

/-- Python `comment or default`: `None` and the empty string are falsy. -/
def pyOr (comment : Option String) (default : String) : String :=
  match comment with
  | none => default
  | some s => if s = "" then default else s

/-- The comment synthesized by `perform_inventory` when none is given
(line 208): it states the physical (actual) and book (before) counts. -/
def defaultInventoryComment (actual_quantity quantity_before : Int) : String :=
  "Інвентаризація: фактична " ++ toString actual_quantity ++
    ", облікова " ++ toString quantity_before

/-- `ReplacementFundManager.perform_inventory` (lines 159-220). -/
def perform_inventory (st : FundStore) (fund_item_id : Nat)
    (actual_quantity : Int) (user_id : Nat) (comment : Option String)
    (correct_accounting : Bool) : Bool × FundStore :=
  match findItem st.items fund_item_id with
  | none => (false, st)
  | some fund_item =>
    let quantity_before := fund_item.quantity_available
    let quantity_after :=
      if correct_accounting then actual_quantity
      else fund_item.quantity_available
    let mutated : ReplacementFund :=
      { fund_item with
        quantity_actual := some actual_quantity,
        last_inventory_date := some st.clock,
        quantity_available :=
          if correct_accounting then actual_quantity
          else fund_item.quantity_available,
        updated_at := st.clock }
    let movement : ReplacementFundMovement :=
      { id := st.next_movement_id,
        fund_item_id := fund_item_id,
        movement_type := "INVENTORY",
        ticket_id := none,
        quantity := actual_quantity,
        quantity_before := some quantity_before,
        quantity_after := some quantity_after,
        comment := some (pyOr comment
          (defaultInventoryComment actual_quantity quantity_before)),
        user_id := user_id,
        created_at := st.clock }
    (true,
      { items := updateItem st.items fund_item_id mutated,
        movements := st.movements ++ [movement],
        next_movement_id := st.next_movement_id + 1,
        clock := st.clock + 1 })

/-- Catalog reference data (`CartridgeType.name`, `Printer.model`) consumed
read-only by `_fund_item_to_dict`. -/
structure CartridgeType where
  id : Nat
  name : String
deriving Repr, DecidableEq

structure Printer where
  id : Nat
  model : String
deriving Repr, DecidableEq

structure Catalog where
  cartridges : List CartridgeType
  printers : List Printer
deriving Repr, DecidableEq

/-- The dictionary built by `_fund_item_to_dict` (lines 271-301). -/
structure FundItemView where
  id : Nat
  item_type : String
  item_name : Option String
  cartridge_type_id : Option Nat
  printer_model_id : Option Nat
  quantity_available : Int
  quantity_reserved : Int
  quantity_actual : Option Int
  discrepancy : Option Int
  last_inventory_date : Option Nat
  company_id : Option Nat
  created_at : Nat
  updated_at : Nat
deriving Repr, DecidableEq

/-- `ReplacementFundManager._fund_item_to_dict`.  Python truthiness: a zero
foreign key behaves like NULL in `if item.cartridge_type_id:`. -/
def fund_item_to_dict (item : ReplacementFund) (cat : Catalog) : FundItemView :=
  let item_name : Option String :=
    match item.cartridge_type_id, item.printer_model_id with
    | some cid, _ =>
      if item.item_type = "CARTRIDGE" ∧ cid ≠ 0 then
        (cat.cartridges.find? (fun ct => ct.id == cid)).map (fun ct => ct.name)
      else
        match item.printer_model_id with
        | some pid =>
          if item.item_type = "PRINTER" ∧ pid ≠ 0 then
            (cat.printers.find? (fun p => p.id == pid)).map (fun p => p.model)
          else none
        | none => none
    | none, some pid =>
      if item.item_type = "PRINTER" ∧ pid ≠ 0 then
        (cat.printers.find? (fun p => p.id == pid)).map (fun p => p.model)
      else none
    | none, none => none
  let discrepancy : Option Int :=
    match item.quantity_actual with
    | some a => some (a - item.quantity_available)
    | none => none
  { id := item.id,
    item_type := item.item_type,
    item_name := item_name,
    cartridge_type_id := item.cartridge_type_id,
    printer_model_id := item.printer_model_id,
    quantity_available := item.quantity_available,
    quantity_reserved := item.quantity_reserved,
    quantity_actual := item.quantity_actual,
    discrepancy := discrepancy,
    last_inventory_date := item.last_inventory_date,
    company_id := item.company_id,
    created_at := item.created_at,
    updated_at := item.updated_at }

/-- Body of `ReplacementFundManager.get_fund_items` (lines 38-63): scope
filter (`company_id is None` means the shared fund), optional item-type
filter (Python truthiness: an empty string disables it), then the
discrepancy filter. -/
def get_fund_items (st : FundStore) (cat : Catalog) (company_id : Option Nat)
    (item_type : Option String) (show_discrepancies_only : Bool) :
    List FundItemView :=
  let q1 : List ReplacementFund :=
    match company_id with
    | some cid => st.items.filter (fun it => it.company_id == some cid)
    | none => st.items.filter (fun it => it.company_id == none)
  let q2 : List ReplacementFund :=
    match item_type with
    | some t => if t ≠ "" then q1.filter (fun it => it.item_type == t) else q1
    | none => q1
  q2.filterMap (fun item =>
    let item_dict := fund_item_to_dict item cat
    if show_discrepancies_only then
      match item.quantity_actual with
      | some a =>
        if a ≠ item.quantity_available then some item_dict else none
      | none => none
    else some item_dict)

/-- The dictionary built inside `get_movements` (lines 251-265). -/
structure MovementView where
  id : Nat
  fund_item_id : Nat
  movement_type : String
  ticket_id : Option Nat
  quantity : Int
  quantity_before : Option Int
  quantity_after : Option Int
  comment : Option String
  user_id : Nat
  created_at : Option Nat
deriving Repr, DecidableEq

def movement_to_dict (m : ReplacementFundMovement) : MovementView :=
  { id := m.id,
    fund_item_id := m.fund_item_id,
    movement_type := m.movement_type,
    ticket_id := m.ticket_id,
    quantity := m.quantity,
    quantity_before := m.quantity_before,
    quantity_after := m.quantity_after,
    comment := m.comment,
    user_id := m.user_id,
    created_at := some m.created_at }

/-- `order_by(created_at.desc())`: newest first. -/
def createdDesc (x y : ReplacementFundMovement) : Prop :=
  y.created_at ≤ x.created_at

instance : DecidableRel createdDesc :=
  fun x y => Nat.decLe y.created_at x.created_at

/-- Body of `ReplacementFundManager.get_movements` (lines 239-265).  Python
truthiness again: `if fund_item_id:` skips the filter for `None` and for 0. -/
def get_movements (st : FundStore) (fund_item_id : Option Nat)
    (movement_type : Option String) (limit : Nat) : List MovementView :=
  let q1 : List ReplacementFundMovement :=
    match fund_item_id with
    | some fid =>
      if fid ≠ 0 then st.movements.filter (fun m => m.fund_item_id == fid)
      else st.movements
    | none => st.movements
  let q2 : List ReplacementFundMovement :=
    match movement_type with
    | some t =>
      if t ≠ "" then q1.filter (fun m => m.movement_type == t) else q1
    | none => q1
  ((q2.insertionSort createdDesc).take limit).map movement_to_dict

/-- The `try/except` wrapper of `get_fund_items` (lines 38, 65-67): any
storage failure while querying is swallowed and an empty list returned. -/
def get_fund_items_catching (db : Except String FundStore) (cat : Catalog)
    (company_id : Option Nat) (item_type : Option String)
    (show_discrepancies_only : Bool) : List FundItemView :=
  match db with
  | Except.ok st => get_fund_items st cat company_id item_type show_discrepancies_only
  | Except.error _ => []

/-- The `try/except` wrapper of `get_movements` (lines 239, 267-269). -/
def get_movements_catching (db : Except String FundStore)
    (fund_item_id : Option Nat) (movement_type : Option String)
    (limit : Nat) : List MovementView :=
  match db with
  | Except.ok st => get_movements st fund_item_id movement_type limit
  | Except.error _ => []

/-- A store with no rows at all. -/
def emptyStore : FundStore :=
  { items := [], movements := [], next_movement_id := 1, clock := 0 }

/-! ### Derived notions used to state the claims -/

/-- The two book counters of the fund item with the given id, when it exists. -/
def countersOf (st : FundStore) (fund_item_id : Nat) : Option (Int × Int) :=
  (findItem st.items fund_item_id).map
    (fun it => (it.quantity_available, it.quantity_reserved))

/-- The movement rows belonging to one fund item, in table (insertion)
order. -/
def movementsFor (st : FundStore) (fund_item_id : Nat) :
    List ReplacementFundMovement :=
  st.movements.filter (fun m => m.fund_item_id == fund_item_id)

/-- Replaying one audit record against a pair (available, reserved): the
counter effect each movement type has in `perform_operation` /
`perform_inventory` (an INVENTORY record carries its resulting book
quantity in `quantity_after`). -/
def applyMovement (c : Int × Int) (m : ReplacementFundMovement) : Int × Int :=
  if m.movement_type = "ISSUE" then (c.1 - m.quantity, c.2 + m.quantity)
  else if m.movement_type = "RETURN" then (c.1 + m.quantity, c.2 - m.quantity)
  else if m.movement_type = "WRITE_OFF" then (c.1 - m.quantity, c.2)
  else if m.movement_type = "RECEIVE" then (c.1 + m.quantity, c.2)
  else if m.movement_type = "INVENTORY" then (m.quantity_after.getD c.1, c.2)
  else c

/-- Replaying a whole movement list from initial counters. -/
def replay (c : Int × Int) (ms : List ReplacementFundMovement) : Int × Int :=
  ms.foldl applyMovement c

/-- One mutating manager call: `perform_operation` or `perform_inventory`
with all of its arguments. -/
inductive FundOp where
  | ledger (fund_item_id : Nat) (operation_type : String) (quantity : Int)
      (user_id : Nat) (ticket_id : Option Nat) (comment : Option String)
  | inventory (fund_item_id : Nat) (actual_quantity : Int) (user_id : Nat)
      (comment : Option String) (correct_accounting : Bool)
deriving Repr, DecidableEq

def runOp (st : FundStore) : FundOp → Bool × FundStore
  | .ledger i ty q u t c => perform_operation st i ty q u t c
  | .inventory i a u c corr => perform_inventory st i a u c corr

/-- The fund item an operation addresses. -/
def opTarget : FundOp → Nat
  | .ledger i _ _ _ _ _ => i
  | .inventory i _ _ _ _ => i

/-- Running a sequence of mutating calls; a failed call leaves the store as
it was (the manager returns `False` without committing anything). -/
def runOps (st : FundStore) : List FundOp → FundStore
  | [] => st
  | o :: rest => runOps (runOp st o).2 rest

/-- How many calls of the sequence succeed and address the given fund item. -/
def numSuccessFor (st : FundStore) (fund_item_id : Nat) : List FundOp → Nat
  | [] => 0
  | o :: rest =>
    (if (runOp st o).1 = true ∧ opTarget o = fund_item_id then 1 else 0) +
      numSuccessFor (runOp st o).2 fund_item_id rest

/-- One `perform_operation` call with its arguments (used for the claims
that quantify only over LedgerEngine operations). -/
structure OpCall where
  fund_item_id : Nat
  operation_type : String
  quantity : Int
  user_id : Nat
  ticket_id : Option Nat
  comment : Option String
deriving Repr, DecidableEq

def runCalls (st : FundStore) : List OpCall → FundStore
  | [] => st
  | c :: rest =>
    runCalls (perform_operation st c.fund_item_id c.operation_type c.quantity
      c.user_id c.ticket_id c.comment).2 rest

/-- All movement timestamps in the store are in the clock's past (true of
every store whose history was produced by the manager itself). -/
def clockBound (st : FundStore) : Prop :=
  ∀ m ∈ st.movements, m.created_at < st.clock

instance (st : FundStore) : Decidable (clockBound st) :=
  List.decidableBAll _ st.movements

/-- The movement row appended by a successful `perform_operation`. -/
def ledgerMovement (st : FundStore) (fund_item_id : Nat)
    (operation_type : String) (quantity : Int) (user_id : Nat)
    (ticket_id : Option Nat) (comment : Option String) :
    ReplacementFundMovement :=
  { id := st.next_movement_id,
    fund_item_id := fund_item_id,
    movement_type := operation_type,
    ticket_id := ticket_id,
    quantity := quantity,
    quantity_before := none,
    quantity_after := none,
    comment := comment,
    user_id := user_id,
    created_at := st.clock }

/-- A concrete fund item used to evaluate the theorems on explicit inputs. -/
def demoItem : ReplacementFund :=
  { id := 1, item_type := "CARTRIDGE", cartridge_type_id := some 1,
    printer_model_id := none, quantity_available := 5, quantity_reserved := 2,
    quantity_actual := none, last_inventory_date := none, company_id := none,
    created_at := 0, updated_at := 0 }

/-- A concrete one-item store. -/
def demoStore : FundStore :=
  { items := [demoItem], movements := [], next_movement_id := 1, clock := 1 }

/-- A concrete catalog. -/
def demoCatalog : Catalog :=
  { cartridges := [{ id := 1, name := "HP CE285A" }], printers := [] }

/-- A concrete sequence of mutating calls. -/
def demoOps : List FundOp :=
  [ .ledger 1 "ISSUE" 2 7 (some 55) none,
    .inventory 1 9 7 none true,
    .ledger 1 "RETURN" 1 7 none none,
    .ledger 1 "WRITE_OFF" 20 7 none none ]

/-- The discrepancy predicate of the filtered view, expressed on the emitted
dictionaries. -/
def hasDiscrepancy (v : FundItemView) : Bool :=
  match v.quantity_actual with
  | some a => decide (a ≠ v.quantity_available)
  | none => false

/-- Strict chronological order on movement rows. -/
def createdLt (x y : ReplacementFundMovement) : Prop :=
  x.created_at < y.created_at

end SD

/-! ## Basic lemmas about lookup, update and the two manager calls -/

namespace SD

/-- The row `first()` returns indeed carries the requested id. -/
theorem findItem_id {items : List ReplacementFund} {i : Nat}
    {item : ReplacementFund} (h : findItem items i = some item) :
    item.id = i := by
  unfold findItem at h
  have hp := @List.find?_some ReplacementFund (fun it => it.id == i) item items h
  simpa using hp

/-- Updating the looked-up row: the subsequent lookup of the same id sees the
new row (when the new row keeps the id). -/
theorem findItem_updateItem_self (items : List ReplacementFund) (i : Nat)
    (v : ReplacementFund) (hv : v.id = i) :
    findItem (updateItem items i v) i = (findItem items i).map (fun _ => v) := by
  induction items with
  | nil => rfl
  | cons a rest ih =>
    show findItem ((if a.id == i then v else a) :: updateItem rest i v) i = _
    by_cases h : a.id = i
    · rw [if_pos (by simp [h])]
      rw [findItem, List.find?_cons_of_pos _ (by simp [hv])]
      rw [findItem, List.find?_cons_of_pos _ (by simp [h])]
      rfl
    · rw [if_neg (by simp [h])]
      rw [findItem, List.find?_cons_of_neg _ (by simp [h])]
      rw [findItem, List.find?_cons_of_neg _ (by simp [h])]
      exact ih

/-- Updating one row does not change what lookups of other ids see. -/
theorem findItem_updateItem_ne (items : List ReplacementFund) (i j : Nat)
    (v : ReplacementFund) (hv : v.id = i) (hij : j ≠ i) :
    findItem (updateItem items i v) j = findItem items j := by
  induction items with
  | nil => rfl
  | cons a rest ih =>
    show findItem ((if a.id == i then v else a) :: updateItem rest i v) j = _
    by_cases h : a.id = i
    · rw [if_pos (by simp [h])]
      rw [findItem, List.find?_cons_of_neg _ (by simp [hv, Ne.symm hij])]
      rw [findItem, List.find?_cons_of_neg _ (by simp [h, Ne.symm hij])]
      exact ih
    · rw [if_neg (by simp [h])]
      by_cases hj : a.id = j
      · rw [findItem, List.find?_cons_of_pos _ (by simp [hj])]
        rw [findItem, List.find?_cons_of_pos _ (by simp [hj])]
      · rw [findItem, List.find?_cons_of_neg _ (by simp [hj])]
        rw [findItem, List.find?_cons_of_neg _ (by simp [hj])]
        exact ih

theorem countersOf_eq {st : FundStore} {i : Nat} {item : ReplacementFund}
    (h : findItem st.items i = some item) :
    countersOf st i = some (item.quantity_available, item.quantity_reserved) := by
  unfold countersOf
  rw [h]
  rfl

/-- A missing fund item: `perform_operation` fails and commits nothing. -/
theorem perform_operation_not_found {st : FundStore} {i : Nat} {ty : String}
    {q : Int} {u : Nat} {t : Option Nat} {c : Option String}
    (h : findItem st.items i = none) :
    perform_operation st i ty q u t c = (false, st) := by
  simp [perform_operation, h]

/-- A rejected branch (insufficient balance or unknown operation type):
`perform_operation` fails and commits nothing. -/
theorem perform_operation_reject {st : FundStore} {i : Nat} {ty : String}
    {q : Int} {u : Nat} {t : Option Nat} {c : Option String}
    {item : ReplacementFund} (hfind : findItem st.items i = some item)
    (hbr : applyLedgerBranch item ty q = none) :
    perform_operation st i ty q u t c = (false, st) := by
  simp [perform_operation, hfind, hbr]

/-- A successful `perform_operation`: the looked-up row is replaced by the
mutated one (with `updated_at` refreshed) and one movement row appended, in
one committed transaction. -/
theorem perform_operation_success {st : FundStore} {i : Nat} {ty : String}
    {q : Int} {u : Nat} {t : Option Nat} {c : Option String}
    {item mutated : ReplacementFund}
    (hfind : findItem st.items i = some item)
    (hbr : applyLedgerBranch item ty q = some mutated) :
    perform_operation st i ty q u t c =
      (true,
       { items := updateItem st.items i { mutated with updated_at := st.clock },
         movements := st.movements ++ [ledgerMovement st i ty q u t c],
         next_movement_id := st.next_movement_id + 1,
         clock := st.clock + 1 }) := by
  simp [perform_operation, hfind, hbr, ledgerMovement]

/-- The `if/elif` chain never changes the primary key. -/
theorem applyLedgerBranch_id {item : ReplacementFund} {ty : String} {q : Int}
    {mutated : ReplacementFund}
    (h : applyLedgerBranch item ty q = some mutated) :
    mutated.id = item.id := by
  unfold applyLedgerBranch at h
  split_ifs at h <;> simp_all <;> subst h <;> rfl

/-- After a successful `perform_operation`, looking the item up again sees
the mutated row with its refreshed `updated_at`. -/
theorem findItem_after_success {st : FundStore} {i : Nat} {ty : String}
    {q : Int} {u : Nat} {t : Option Nat} {c : Option String}
    {item mutated : ReplacementFund}
    (hfind : findItem st.items i = some item)
    (hbr : applyLedgerBranch item ty q = some mutated) :
    findItem (perform_operation st i ty q u t c).2.items i =
      some { mutated with updated_at := st.clock } := by
  rw [perform_operation_success hfind hbr]
  dsimp only
  rw [findItem_updateItem_self st.items i { mutated with updated_at := st.clock }
      ((applyLedgerBranch_id hbr).trans (findItem_id hfind)), hfind]
  rfl

/-- Counter values seen after a successful `perform_operation`. -/
theorem countersOf_after_success {st : FundStore} {i : Nat} {ty : String}
    {q : Int} {u : Nat} {t : Option Nat} {c : Option String}
    {item mutated : ReplacementFund}
    (hfind : findItem st.items i = some item)
    (hbr : applyLedgerBranch item ty q = some mutated) :
    countersOf (perform_operation st i ty q u t c).2 i =
      some (mutated.quantity_available, mutated.quantity_reserved) := by
  unfold countersOf
  rw [findItem_after_success hfind hbr]
  rfl

theorem applyLedgerBranch_issue (item : ReplacementFund) (q : Int) :
    applyLedgerBranch item "ISSUE" q =
      if item.quantity_available < q then none
      else some { item with
        quantity_available := item.quantity_available - q,
        quantity_reserved := item.quantity_reserved + q } := rfl

theorem applyLedgerBranch_return (item : ReplacementFund) (q : Int) :
    applyLedgerBranch item "RETURN" q =
      if item.quantity_reserved < q then none
      else some { item with
        quantity_available := item.quantity_available + q,
        quantity_reserved := item.quantity_reserved - q } := rfl

theorem applyLedgerBranch_write_off (item : ReplacementFund) (q : Int) :
    applyLedgerBranch item "WRITE_OFF" q =
      if item.quantity_available < q then none
      else some { item with
        quantity_available := item.quantity_available - q } := rfl

theorem applyLedgerBranch_receive (item : ReplacementFund) (q : Int) :
    applyLedgerBranch item "RECEIVE" q =
      some { item with
        quantity_available := item.quantity_available + q } := rfl

theorem applyLedgerBranch_unknown {ty : String} (item : ReplacementFund)
    (q : Int) (h1 : ty ≠ "ISSUE") (h2 : ty ≠ "RETURN")
    (h3 : ty ≠ "WRITE_OFF") (h4 : ty ≠ "RECEIVE") :
    applyLedgerBranch item ty q = none := by
  unfold applyLedgerBranch
  rw [if_neg h1, if_neg h2, if_neg h3, if_neg h4]

/-- A missing fund item: `perform_inventory` fails and commits nothing. -/
theorem perform_inventory_not_found {st : FundStore} {i : Nat} {a : Int}
    {u : Nat} {c : Option String} {corr : Bool}
    (h : findItem st.items i = none) :
    perform_inventory st i a u c corr = (false, st) := by
  simp [perform_inventory, h]

/-- A `perform_inventory` on an existing item always succeeds and commits the
mutated row together with one INVENTORY movement. -/
theorem perform_inventory_success {st : FundStore} {i : Nat} {a : Int}
    {u : Nat} {c : Option String} {corr : Bool} {item : ReplacementFund}
    (hfind : findItem st.items i = some item) :
    perform_inventory st i a u c corr =
      (true,
       { items := updateItem st.items i
           { item with
             quantity_actual := some a,
             last_inventory_date := some st.clock,
             quantity_available :=
               if corr then a else item.quantity_available,
             updated_at := st.clock },
         movements := st.movements ++
           [{ id := st.next_movement_id,
              fund_item_id := i,
              movement_type := "INVENTORY",
              ticket_id := none,
              quantity := a,
              quantity_before := some item.quantity_available,
              quantity_after := some (if corr then a else item.quantity_available),
              comment := some (pyOr c
                (defaultInventoryComment a item.quantity_available)),
              user_id := u,
              created_at := st.clock }],
         next_movement_id := st.next_movement_id + 1,
         clock := st.clock + 1 }) := by
  simp [perform_inventory, hfind]

/-- After a `perform_inventory` on an existing item, looking the item up
again sees the reconciled row. -/
theorem findItem_after_inventory {st : FundStore} {i : Nat} {a : Int}
    {u : Nat} {c : Option String} {corr : Bool} {item : ReplacementFund}
    (hfind : findItem st.items i = some item) :
    findItem (perform_inventory st i a u c corr).2.items i =
      some { item with
        quantity_actual := some a,
        last_inventory_date := some st.clock,
        quantity_available := if corr then a else item.quantity_available,
        updated_at := st.clock } := by
  rw [perform_inventory_success hfind]
  dsimp only
  rw [findItem_updateItem_self st.items i
      { item with
        quantity_actual := some a,
        last_inventory_date := some st.clock,
        quantity_available := if corr then a else item.quantity_available,
        updated_at := st.clock }
      (by have h := findItem_id hfind; exact h), hfind]
  rfl

end SD

/-! ## Claim C1 -/

namespace SD

/-- Claim C1 as frozen is false on the code: `perform_operation` applies no
positivity check to `quantity`.  At the concrete input `ISSUE` with
`quantity = 0` on an existing item the call returns success (not failure)
and a Movement row is written; with `quantity = -2` it even mutates both
counters. -/
theorem c1_counterexample :
    (perform_operation demoStore 1 "ISSUE" 0 7 none none).1 = true ∧
    (perform_operation demoStore 1 "ISSUE" 0 7 none none).2.movements.length = 1 ∧
    (perform_operation demoStore 1 "ISSUE" (-2) 7 none none).1 = true ∧
    countersOf (perform_operation demoStore 1 "ISSUE" (-2) 7 none none).2 1 =
      some (7, 0) := by
  decide

/-- Claim C1 (amended): `perform_operation` does not validate positivity of
`quantity`.  A call with `quantity ≤ 0` is processed by the ordinary branch
logic; for `ISSUE` on an existing item with non-negative availability the
balance check passes, so the call succeeds, subtracts the non-positive
quantity from `quantity_available`, adds it to `quantity_reserved`, and
appends one Movement row. -/
theorem c1_amended (st : FundStore) (i : Nat) (q : Int) (u : Nat)
    (t : Option Nat) (c : Option String) (item : ReplacementFund)
    (hfind : findItem st.items i = some item) (hq : q ≤ 0)
    (hA : 0 ≤ item.quantity_available) :
    (perform_operation st i "ISSUE" q u t c).1 = true ∧
    countersOf (perform_operation st i "ISSUE" q u t c).2 i =
      some (item.quantity_available - q, item.quantity_reserved + q) ∧
    (perform_operation st i "ISSUE" q u t c).2.movements =
      st.movements ++ [ledgerMovement st i "ISSUE" q u t c] := by
  have hbr : applyLedgerBranch item "ISSUE" q =
      some { item with
        quantity_available := item.quantity_available - q,
        quantity_reserved := item.quantity_reserved + q } := by
    rw [applyLedgerBranch_issue, if_neg (by omega)]
  refine ⟨?_, ?_, ?_⟩
  · rw [perform_operation_success hfind hbr]
  · exact countersOf_after_success hfind hbr
  · rw [perform_operation_success hfind hbr]

theorem c1_amended_witness :
    (perform_operation demoStore 1 "ISSUE" 0 7 none none).1 = true ∧
    countersOf (perform_operation demoStore 1 "ISSUE" 0 7 none none).2 1 =
      some (demoItem.quantity_available - 0, demoItem.quantity_reserved + 0) ∧
    (perform_operation demoStore 1 "ISSUE" 0 7 none none).2.movements =
      demoStore.movements ++ [ledgerMovement demoStore 1 "ISSUE" 0 7 none none] :=
  c1_amended demoStore 1 0 7 none none demoItem (by decide) (by decide) (by decide)

end SD

/-! ## Claim C8 -/

namespace SD

/-- Claim C8 as frozen is false on the code: `perform_inventory` applies no
sign check to `actual_quantity`.  At the concrete input `-1` on an existing
item the call returns success (not failure), `quantity_actual` becomes `-1`
and an INVENTORY Movement row is written. -/
theorem c8_counterexample :
    (perform_inventory demoStore 1 (-1) 7 none false).1 = true ∧
    (findItem (perform_inventory demoStore 1 (-1) 7 none false).2.items 1).map
      (fun it => it.quantity_actual) = some (some (-1)) ∧
    (perform_inventory demoStore 1 (-1) 7 none false).2.movements.length = 1 := by
  decide

/-- Claim C8 (amended): `perform_inventory` does not validate the sign of
`actual_quantity`.  A call with a negative `actual_quantity` on an existing
item succeeds exactly like any other reconciliation: it records the negative
value in `quantity_actual`, stamps `last_inventory_date`, corrects
`quantity_available` only when `correct_accounting` is set, and appends one
INVENTORY Movement row. -/
theorem c8_amended (st : FundStore) (i : Nat) (a : Int) (u : Nat)
    (c : Option String) (corr : Bool) (item : ReplacementFund)
    (hfind : findItem st.items i = some item) (_ha : a < 0) :
    (perform_inventory st i a u c corr).1 = true ∧
    findItem (perform_inventory st i a u c corr).2.items i =
      some { item with
        quantity_actual := some a,
        last_inventory_date := some st.clock,
        quantity_available := if corr then a else item.quantity_available,
        updated_at := st.clock } ∧
    (perform_inventory st i a u c corr).2.movements =
      st.movements ++
        [{ id := st.next_movement_id,
           fund_item_id := i,
           movement_type := "INVENTORY",
           ticket_id := none,
           quantity := a,
           quantity_before := some item.quantity_available,
           quantity_after := some (if corr then a else item.quantity_available),
           comment := some (pyOr c
             (defaultInventoryComment a item.quantity_available)),
           user_id := u,
           created_at := st.clock }] := by
  refine ⟨?_, ?_, ?_⟩
  · rw [perform_inventory_success hfind]
  · exact findItem_after_inventory hfind
  · rw [perform_inventory_success hfind]

theorem c8_amended_witness :
    (perform_inventory demoStore 1 (-1) 7 none false).1 = true ∧
    findItem (perform_inventory demoStore 1 (-1) 7 none false).2.items 1 =
      some { demoItem with
        quantity_actual := some (-1),
        last_inventory_date := some demoStore.clock,
        quantity_available :=
          if false then (-1) else demoItem.quantity_available,
        updated_at := demoStore.clock } ∧
    (perform_inventory demoStore 1 (-1) 7 none false).2.movements =
      demoStore.movements ++
        [{ id := demoStore.next_movement_id,
           fund_item_id := 1,
           movement_type := "INVENTORY",
           ticket_id := none,
           quantity := -1,
           quantity_before := some demoItem.quantity_available,
           quantity_after :=
             some (if false then (-1) else demoItem.quantity_available),
           comment := some (pyOr none
             (defaultInventoryComment (-1) demoItem.quantity_available)),
           user_id := 7,
           created_at := demoStore.clock }] :=
  c8_amended demoStore 1 (-1) 7 none false demoItem (by decide) (by decide)

end SD

/-! ## Claim C2 -/

namespace SD

/-- The branch chain keeps both counters non-negative whenever the requested
quantity is positive and the incoming counters are non-negative. -/
theorem applyLedgerBranch_nonneg {item : ReplacementFund} {ty : String}
    {q : Int} {mutated : ReplacementFund}
    (h : applyLedgerBranch item ty q = some mutated) (hq : 0 < q)
    (hA : 0 ≤ item.quantity_available) (hR : 0 ≤ item.quantity_reserved) :
    0 ≤ mutated.quantity_available ∧ 0 ≤ mutated.quantity_reserved := by
  unfold applyLedgerBranch at h
  split_ifs at h <;>
    first
      | exact Option.noConfusion h
      | (injection h with h
         subst h
         refine ⟨?_, ?_⟩ <;> dsimp only <;> omega)

/-- One `perform_operation` call with a positive quantity keeps the counters
of every fund item non-negative. -/
theorem perform_operation_nonneg_step (st : FundStore) (j : Nat) (ty : String)
    (q : Int) (u : Nat) (t : Option Nat) (c : Option String) (i : Nat)
    (B S : Int) (hq : 0 < q) (h : countersOf st i = some (B, S))
    (hB : 0 ≤ B) (hS : 0 ≤ S) :
    ∃ B2 S2, countersOf (perform_operation st j ty q u t c).2 i =
      some (B2, S2) ∧ 0 ≤ B2 ∧ 0 ≤ S2 := by
  cases hfind : findItem st.items j with
  | none =>
    rw [perform_operation_not_found hfind]
    exact ⟨B, S, h, hB, hS⟩
  | some item =>
    cases hbr : applyLedgerBranch item ty q with
    | none =>
      rw [perform_operation_reject hfind hbr]
      exact ⟨B, S, h, hB, hS⟩
    | some mutated =>
      by_cases hij : i = j
      · subst hij
        have hBS : B = item.quantity_available ∧ S = item.quantity_reserved := by
          rw [countersOf_eq hfind] at h
          have h2 := Option.some.inj h
          exact ⟨(congrArg Prod.fst h2).symm, (congrArg Prod.snd h2).symm⟩
        obtain ⟨hB2, hS2⟩ := applyLedgerBranch_nonneg hbr hq
          (hBS.1 ▸ hB) (hBS.2 ▸ hS)
        exact ⟨mutated.quantity_available, mutated.quantity_reserved,
          countersOf_after_success hfind hbr, hB2, hS2⟩
      · refine ⟨B, S, ?_, hB, hS⟩
        rw [perform_operation_success hfind hbr]
        unfold countersOf at h ⊢
        dsimp only
        rw [findItem_updateItem_ne st.items j i
          { mutated with updated_at := st.clock }
          ((applyLedgerBranch_id hbr).trans (findItem_id hfind)) hij]
        exact h

/-- Running a whole sequence of positive-quantity calls keeps the counters of
every fund item non-negative. -/
theorem runCalls_nonneg (calls : List OpCall) :
    ∀ (st : FundStore) (i : Nat) (B S : Int),
      (∀ cl ∈ calls, 0 < cl.quantity) →
      countersOf st i = some (B, S) → 0 ≤ B → 0 ≤ S →
      ∃ B2 S2, countersOf (runCalls st calls) i = some (B2, S2) ∧
        0 ≤ B2 ∧ 0 ≤ S2 := by
  induction calls with
  | nil =>
    intro st i B S _ h hB hS
    exact ⟨B, S, h, hB, hS⟩
  | cons cl rest ih =>
    intro st i B S hpos h hB hS
    obtain ⟨B1, S1, h1, hB1, hS1⟩ :=
      perform_operation_nonneg_step st cl.fund_item_id cl.operation_type
        cl.quantity cl.user_id cl.ticket_id cl.comment i B S
        (hpos cl (List.mem_cons_self cl rest)) h hB hS
    exact ih _ i B1 S1 (fun x hx => hpos x (List.mem_cons_of_mem cl hx))
      h1 hB1 hS1

/-- Claim C2 as frozen is false on the code: quantities are not validated,
and a `RECEIVE` of `-9` on an item holding (available 5, reserved 2) commits
successfully and leaves `quantity_available = -4 < 0`. -/
theorem c2_counterexample :
    (perform_operation demoStore 1 "RECEIVE" (-9) 7 none none).1 = true ∧
    countersOf (perform_operation demoStore 1 "RECEIVE" (-9) 7 none none).2 1 =
      some (-4, 2) ∧ (-4 : Int) < 0 := by
  decide

/-- Claim C2 (amended): restricted to positive quantities the invariant
holds.  For any sequence of `perform_operation` calls whose quantities are
all positive, starting from a fund item whose counters are non-negative,
both counters are still non-negative after every prefix of the sequence
(hence after every successfully committed operation); and any operation
that would drive a counter negative (`ISSUE`/`WRITE_OFF` with
`quantity_available < quantity`, `RETURN` with
`quantity_reserved < quantity`) is rejected with no state change. -/
theorem c2_amended (calls : List OpCall)
    (hpos : ∀ cl ∈ calls, 0 < cl.quantity) (st0 : FundStore) (i : Nat)
    (A R : Int) (h0 : countersOf st0 i = some (A, R))
    (hA : 0 ≤ A) (hR : 0 ≤ R) :
    (∀ l1 l2, calls = l1 ++ l2 →
      ∃ B S, countersOf (runCalls st0 l1) i = some (B, S) ∧
        0 ≤ B ∧ 0 ≤ S) ∧
    (∀ (st : FundStore) (cl : OpCall) (item : ReplacementFund),
      findItem st.items cl.fund_item_id = some item →
      (((cl.operation_type = "ISSUE" ∨ cl.operation_type = "WRITE_OFF") ∧
          item.quantity_available < cl.quantity) ∨
        (cl.operation_type = "RETURN" ∧
          item.quantity_reserved < cl.quantity)) →
      perform_operation st cl.fund_item_id cl.operation_type cl.quantity
        cl.user_id cl.ticket_id cl.comment = (false, st)) := by
  constructor
  · intro l1 l2 hsplit
    refine runCalls_nonneg l1 st0 i A R ?_ h0 hA hR
    intro x hx
    exact hpos x (hsplit ▸ List.mem_append.mpr (Or.inl hx))
  · intro st cl item hfind hcase
    rcases hcase with ⟨hty, hlt⟩ | ⟨hty, hlt⟩
    · rcases hty with hty | hty <;>
        · refine perform_operation_reject hfind ?_
          rw [hty]
          first
            | rw [applyLedgerBranch_issue, if_pos hlt]
            | rw [applyLedgerBranch_write_off, if_pos hlt]
    · refine perform_operation_reject hfind ?_
      rw [hty, applyLedgerBranch_return, if_pos hlt]

theorem c2_amended_witness :
    ∃ B S,
      countersOf
        (runCalls demoStore
          [{ fund_item_id := 1, operation_type := "ISSUE", quantity := 3,
             user_id := 7, ticket_id := some 55, comment := none }]) 1 =
        some (B, S) ∧ 0 ≤ B ∧ 0 ≤ S :=
  (c2_amended
    [{ fund_item_id := 1, operation_type := "ISSUE", quantity := 3,
       user_id := 7, ticket_id := some 55, comment := none }]
    (by decide) demoStore 1 5 2 (by decide) (by decide) (by decide)).1
    [{ fund_item_id := 1, operation_type := "ISSUE", quantity := 3,
       user_id := 7, ticket_id := some 55, comment := none }]
    [] rfl

end SD

/-! ## Claims C4, C5, C6, C7 -/

namespace SD

theorem issue_branch_some {item : ReplacementFund} {q : Int}
    (hle : q ≤ item.quantity_available) :
    applyLedgerBranch item "ISSUE" q =
      some { item with
        quantity_available := item.quantity_available - q,
        quantity_reserved := item.quantity_reserved + q } := by
  rw [applyLedgerBranch_issue, if_neg (not_lt.mpr hle)]

theorem return_branch_some {item : ReplacementFund} {q : Int}
    (hle : q ≤ item.quantity_reserved) :
    applyLedgerBranch item "RETURN" q =
      some { item with
        quantity_available := item.quantity_available + q,
        quantity_reserved := item.quantity_reserved - q } := by
  rw [applyLedgerBranch_return, if_neg (not_lt.mpr hle)]

theorem write_off_branch_some {item : ReplacementFund} {q : Int}
    (hle : q ≤ item.quantity_available) :
    applyLedgerBranch item "WRITE_OFF" q =
      some { item with
        quantity_available := item.quantity_available - q } := by
  rw [applyLedgerBranch_write_off, if_neg (not_lt.mpr hle)]

theorem issue_branch_none {item : ReplacementFund} {q : Int}
    (hlt : item.quantity_available < q) :
    applyLedgerBranch item "ISSUE" q = none := by
  rw [applyLedgerBranch_issue, if_pos hlt]

theorem return_branch_none {item : ReplacementFund} {q : Int}
    (hlt : item.quantity_reserved < q) :
    applyLedgerBranch item "RETURN" q = none := by
  rw [applyLedgerBranch_return, if_pos hlt]

theorem write_off_branch_none {item : ReplacementFund} {q : Int}
    (hlt : item.quantity_available < q) :
    applyLedgerBranch item "WRITE_OFF" q = none := by
  rw [applyLedgerBranch_write_off, if_pos hlt]

/-- Claim C4: per movement type, `perform_operation` succeeds exactly under
the specified precondition and applies exactly the specified counter update:
`ISSUE` moves `quantity` from available to reserved, `RETURN` moves it back,
`WRITE_OFF` only decrements available, `RECEIVE` only increments available
and always succeeds on an existing item. -/
theorem c4_branch_semantics (st : FundStore) (i : Nat) (q : Int) (u : Nat)
    (t : Option Nat) (c : Option String) (item : ReplacementFund)
    (hfind : findItem st.items i = some item) :
    ((perform_operation st i "ISSUE" q u t c).1 = true ↔
      q ≤ item.quantity_available) ∧
    (q ≤ item.quantity_available →
      countersOf (perform_operation st i "ISSUE" q u t c).2 i =
        some (item.quantity_available - q, item.quantity_reserved + q)) ∧
    ((perform_operation st i "RETURN" q u t c).1 = true ↔
      q ≤ item.quantity_reserved) ∧
    (q ≤ item.quantity_reserved →
      countersOf (perform_operation st i "RETURN" q u t c).2 i =
        some (item.quantity_available + q, item.quantity_reserved - q)) ∧
    ((perform_operation st i "WRITE_OFF" q u t c).1 = true ↔
      q ≤ item.quantity_available) ∧
    (q ≤ item.quantity_available →
      countersOf (perform_operation st i "WRITE_OFF" q u t c).2 i =
        some (item.quantity_available - q, item.quantity_reserved)) ∧
    (perform_operation st i "RECEIVE" q u t c).1 = true ∧
    countersOf (perform_operation st i "RECEIVE" q u t c).2 i =
      some (item.quantity_available + q, item.quantity_reserved) := by
  refine ⟨⟨fun htrue => ?_, fun hle => ?_⟩, fun hle => ?_,
    ⟨fun htrue => ?_, fun hle => ?_⟩, fun hle => ?_,
    ⟨fun htrue => ?_, fun hle => ?_⟩, fun hle => ?_, ?_, ?_⟩
  · by_contra hnot
    rw [perform_operation_reject hfind (issue_branch_none (not_le.mp hnot))]
      at htrue
    simp at htrue
  · rw [perform_operation_success hfind (issue_branch_some hle)]
  · exact countersOf_after_success hfind (issue_branch_some hle)
  · by_contra hnot
    rw [perform_operation_reject hfind (return_branch_none (not_le.mp hnot))]
      at htrue
    simp at htrue
  · rw [perform_operation_success hfind (return_branch_some hle)]
  · exact countersOf_after_success hfind (return_branch_some hle)
  · by_contra hnot
    rw [perform_operation_reject hfind (write_off_branch_none (not_le.mp hnot))]
      at htrue
    simp at htrue
  · rw [perform_operation_success hfind (write_off_branch_some hle)]
  · exact countersOf_after_success hfind (write_off_branch_some hle)
  · rw [perform_operation_success hfind (applyLedgerBranch_receive item q)]
  · exact countersOf_after_success hfind (applyLedgerBranch_receive item q)

theorem c4_branch_semantics_witness :
    ((perform_operation demoStore 1 "ISSUE" 4 7 none none).1 = true ↔
      (4 : Int) ≤ demoItem.quantity_available) ∧
    ((4 : Int) ≤ demoItem.quantity_available →
      countersOf (perform_operation demoStore 1 "ISSUE" 4 7 none none).2 1 =
        some (demoItem.quantity_available - 4, demoItem.quantity_reserved + 4)) ∧
    ((perform_operation demoStore 1 "RETURN" 4 7 none none).1 = true ↔
      (4 : Int) ≤ demoItem.quantity_reserved) ∧
    ((4 : Int) ≤ demoItem.quantity_reserved →
      countersOf (perform_operation demoStore 1 "RETURN" 4 7 none none).2 1 =
        some (demoItem.quantity_available + 4, demoItem.quantity_reserved - 4)) ∧
    ((perform_operation demoStore 1 "WRITE_OFF" 4 7 none none).1 = true ↔
      (4 : Int) ≤ demoItem.quantity_available) ∧
    ((4 : Int) ≤ demoItem.quantity_available →
      countersOf (perform_operation demoStore 1 "WRITE_OFF" 4 7 none none).2 1 =
        some (demoItem.quantity_available - 4, demoItem.quantity_reserved)) ∧
    (perform_operation demoStore 1 "RECEIVE" 4 7 none none).1 = true ∧
    countersOf (perform_operation demoStore 1 "RECEIVE" 4 7 none none).2 1 =
      some (demoItem.quantity_available + 4, demoItem.quantity_reserved) :=
  c4_branch_semantics demoStore 1 4 7 none none demoItem (by decide)

/-- Claim C5: a successful `ISSUE(q)` followed by a successful `RETURN(q)`
on the same item restores both counters to their pre-ISSUE values exactly. -/
theorem c5_issue_return_round_trip (st : FundStore) (i : Nat) (q : Int)
    (u1 u2 : Nat) (t1 t2 : Option Nat) (c1 c2 : Option String)
    (item : ReplacementFund) (hfind : findItem st.items i = some item)
    (_hq : 0 < q) (hA : q ≤ item.quantity_available)
    (hR : 0 ≤ item.quantity_reserved) :
    (perform_operation st i "ISSUE" q u1 t1 c1).1 = true ∧
    (perform_operation (perform_operation st i "ISSUE" q u1 t1 c1).2 i
        "RETURN" q u2 t2 c2).1 = true ∧
    countersOf (perform_operation
        (perform_operation st i "ISSUE" q u1 t1 c1).2 i
        "RETURN" q u2 t2 c2).2 i =
      some (item.quantity_available, item.quantity_reserved) := by
  have hbr1 := issue_branch_some hA
  have hfind2 : findItem (perform_operation st i "ISSUE" q u1 t1 c1).2.items i =
      some { item with
        quantity_available := item.quantity_available - q,
        quantity_reserved := item.quantity_reserved + q,
        updated_at := st.clock } :=
    findItem_after_success hfind hbr1
  have hbr2 : applyLedgerBranch
      { item with
        quantity_available := item.quantity_available - q,
        quantity_reserved := item.quantity_reserved + q,
        updated_at := st.clock } "RETURN" q =
      some { item with
        quantity_available := item.quantity_available - q + q,
        quantity_reserved := item.quantity_reserved + q - q,
        updated_at := st.clock } := by
    rw [applyLedgerBranch_return, if_neg (by dsimp only; omega)]
  refine ⟨?_, ?_, ?_⟩
  · rw [perform_operation_success hfind hbr1]
  · rw [perform_operation_success hfind2 hbr2]
  · rw [countersOf_after_success hfind2 hbr2]
    dsimp only
    simp only [Option.some.injEq, Prod.mk.injEq]
    constructor <;> omega

theorem c5_issue_return_round_trip_witness :
    (perform_operation demoStore 1 "ISSUE" 4 7 (some 55) none).1 = true ∧
    (perform_operation (perform_operation demoStore 1 "ISSUE" 4 7 (some 55)
        none).2 1 "RETURN" 4 8 none none).1 = true ∧
    countersOf (perform_operation (perform_operation demoStore 1 "ISSUE" 4 7
        (some 55) none).2 1 "RETURN" 4 8 none none).2 1 =
      some (demoItem.quantity_available, demoItem.quantity_reserved) :=
  c5_issue_return_round_trip demoStore 1 4 7 8 (some 55) none none none
    demoItem (by decide) (by decide) (by decide) (by decide)

/-- Claim C6: every failing `perform_operation` path — unknown fund item,
insufficient available balance for ISSUE or WRITE_OFF, insufficient reserved
balance for RETURN, unknown movement type — returns failure with the store
byte-for-byte unchanged: no fund item field changes and no movement row is
written. -/
theorem c6_reject_before_mutate (st : FundStore) (i : Nat) (q : Int) (u : Nat)
    (t : Option Nat) (c : Option String) :
    (findItem st.items i = none →
      ∀ ty, perform_operation st i ty q u t c = (false, st)) ∧
    (∀ item, findItem st.items i = some item →
      (item.quantity_available < q →
        perform_operation st i "ISSUE" q u t c = (false, st)) ∧
      (item.quantity_reserved < q →
        perform_operation st i "RETURN" q u t c = (false, st)) ∧
      (item.quantity_available < q →
        perform_operation st i "WRITE_OFF" q u t c = (false, st)) ∧
      (∀ ty, ty ≠ "ISSUE" → ty ≠ "RETURN" → ty ≠ "WRITE_OFF" →
        ty ≠ "RECEIVE" → perform_operation st i ty q u t c = (false, st))) := by
  refine ⟨fun hnone ty => perform_operation_not_found hnone, ?_⟩
  intro item hfind
  refine ⟨fun hlt => ?_, fun hlt => ?_, fun hlt => ?_, fun ty h1 h2 h3 h4 => ?_⟩
  · exact perform_operation_reject hfind (issue_branch_none hlt)
  · exact perform_operation_reject hfind (return_branch_none hlt)
  · exact perform_operation_reject hfind (write_off_branch_none hlt)
  · exact perform_operation_reject hfind
      (applyLedgerBranch_unknown item q h1 h2 h3 h4)

theorem c6_reject_before_mutate_witness :
    perform_operation demoStore 1 "WRITE_OFF" 6 7 none none =
      (false, demoStore) ∧
    perform_operation demoStore 1 "DONATE" 6 7 none none =
      (false, demoStore) ∧
    perform_operation demoStore 2 "ISSUE" 6 7 none none =
      (false, demoStore) :=
  ⟨((c6_reject_before_mutate demoStore 1 6 7 none none).2 demoItem
      (by decide)).2.2.1 (by decide),
   ((c6_reject_before_mutate demoStore 1 6 7 none none).2 demoItem
      (by decide)).2.2.2 "DONATE" (by decide) (by decide) (by decide)
      (by decide),
   (c6_reject_before_mutate demoStore 2 6 7 none none).1 (by decide) "ISSUE"⟩

/-- Claim C7: `perform_inventory` on an existing item always succeeds,
records the physical count in `quantity_actual`, stamps
`last_inventory_date`, overwrites `quantity_available` with the count only
when `correct_accounting` is set (leaving it unchanged otherwise), and
appends exactly one INVENTORY Movement whose `quantity` is the count, whose
`quantity_before` is the pre-call book quantity, whose `quantity_after` is
the count when correcting and the pre-call book quantity otherwise, and
whose comment falls back to the synthesized physical-vs-book text when none
is given. -/
theorem c7_perform_inventory (st : FundStore) (i : Nat) (a : Int) (u : Nat)
    (c : Option String) (corr : Bool) (item : ReplacementFund)
    (hfind : findItem st.items i = some item) :
    (perform_inventory st i a u c corr).1 = true ∧
    findItem (perform_inventory st i a u c corr).2.items i =
      some { item with
        quantity_actual := some a,
        last_inventory_date := some st.clock,
        quantity_available := if corr then a else item.quantity_available,
        updated_at := st.clock } ∧
    (perform_inventory st i a u c corr).2.movements =
      st.movements ++
        [{ id := st.next_movement_id,
           fund_item_id := i,
           movement_type := "INVENTORY",
           ticket_id := none,
           quantity := a,
           quantity_before := some item.quantity_available,
           quantity_after := some (if corr then a else item.quantity_available),
           comment := some (pyOr c
             (defaultInventoryComment a item.quantity_available)),
           user_id := u,
           created_at := st.clock }] ∧
    (c = none →
      pyOr c (defaultInventoryComment a item.quantity_available) =
        defaultInventoryComment a item.quantity_available) := by
  refine ⟨?_, findItem_after_inventory hfind, ?_, fun hc => ?_⟩
  · rw [perform_inventory_success hfind]
  · rw [perform_inventory_success hfind]
  · subst hc
    rfl

theorem c7_perform_inventory_witness :
    (perform_inventory demoStore 1 3 7 none false).1 = true ∧
    findItem (perform_inventory demoStore 1 3 7 none false).2.items 1 =
      some { demoItem with
        quantity_actual := some 3,
        last_inventory_date := some demoStore.clock,
        quantity_available :=
          if false then 3 else demoItem.quantity_available,
        updated_at := demoStore.clock } ∧
    (perform_inventory demoStore 1 3 7 none false).2.movements =
      demoStore.movements ++
        [{ id := demoStore.next_movement_id,
           fund_item_id := 1,
           movement_type := "INVENTORY",
           ticket_id := none,
           quantity := 3,
           quantity_before := some demoItem.quantity_available,
           quantity_after :=
             some (if false then 3 else demoItem.quantity_available),
           comment := some (pyOr none
             (defaultInventoryComment 3 demoItem.quantity_available)),
           user_id := 7,
           created_at := demoStore.clock }] ∧
    ((none : Option String) = none →
      pyOr none (defaultInventoryComment 3 demoItem.quantity_available) =
        defaultInventoryComment 3 demoItem.quantity_available) :=
  c7_perform_inventory demoStore 1 3 7 none false demoItem (by decide)

end SD

/-! ## Claims C9 and C10 -/

namespace SD

theorem gfi_filterMap_true_eq (l : List ReplacementFund) (cat : Catalog) :
    (l.filterMap (fun item =>
      match item.quantity_actual with
      | some a =>
        if a ≠ item.quantity_available
        then some (fund_item_to_dict item cat) else none
      | none => none)) =
      (l.filterMap (fun item => some (fund_item_to_dict item cat))).filter
        hasDiscrepancy := by
  induction l with
  | nil => rfl
  | cons item rest ih =>
    cases hqa : item.quantity_actual with
    | none =>
      have hd : hasDiscrepancy (fund_item_to_dict item cat) = false := by
        unfold hasDiscrepancy fund_item_to_dict
        dsimp only
        rw [hqa]
      simp [List.filterMap_cons, List.filter_cons, hqa, hd]
      simpa using ih
    | some a =>
      by_cases hne : a ≠ item.quantity_available
      · have hd : hasDiscrepancy (fund_item_to_dict item cat) = true := by
          unfold hasDiscrepancy fund_item_to_dict
          dsimp only
          rw [hqa]
          simp [hne]
        simp [List.filterMap_cons, List.filter_cons, hqa, hd, hne]
        simpa using ih
      · have hd : hasDiscrepancy (fund_item_to_dict item cat) = false := by
          unfold hasDiscrepancy fund_item_to_dict
          dsimp only
          rw [hqa]
          simp [hne]
        simp [List.filterMap_cons, List.filter_cons, hqa, hd, hne]
        simpa using ih

theorem gfi_mem_true (l : List ReplacementFund) (cat : Catalog) :
    ∀ v ∈ l.filterMap (fun item =>
      match item.quantity_actual with
      | some a =>
        if a ≠ item.quantity_available
        then some (fund_item_to_dict item cat) else none
      | none => none),
      ∃ a, v.quantity_actual = some a ∧ a ≠ v.quantity_available ∧
        v.discrepancy = some (a - v.quantity_available) := by
  intro v hv
  obtain ⟨item, hmem, hf⟩ := List.mem_filterMap.mp hv
  cases hqa : item.quantity_actual with
  | none =>
    rw [hqa] at hf
    dsimp only at hf
    exact Option.noConfusion hf
  | some a =>
    rw [hqa] at hf
    dsimp only at hf
    by_cases hne : a ≠ item.quantity_available
    · rw [if_pos hne] at hf
      have hv2 := Option.some.inj hf
      subst hv2
      refine ⟨a, ?_, ?_, ?_⟩
      · show item.quantity_actual = some a
        exact hqa
      · show a ≠ item.quantity_available
        exact hne
      · show (fund_item_to_dict item cat).discrepancy =
          some (a - item.quantity_available)
        unfold fund_item_to_dict
        dsimp only
        rw [hqa]
    · rw [if_neg hne] at hf
      exact Option.noConfusion hf

/-- Claim C9: with `show_discrepancies_only` the listing returns exactly the
otherwise-listed items whose `quantity_actual` is set and differs from
`quantity_available` (never-reconciled items drop out), and every returned
view reports `discrepancy = quantity_actual - quantity_available`. -/
theorem c9_discrepancies_only (st : FundStore) (cat : Catalog)
    (company_id : Option Nat) (item_type : Option String) :
    get_fund_items st cat company_id item_type true =
      (get_fund_items st cat company_id item_type false).filter
        hasDiscrepancy ∧
    ∀ v ∈ get_fund_items st cat company_id item_type true,
      ∃ a, v.quantity_actual = some a ∧ a ≠ v.quantity_available ∧
        v.discrepancy = some (a - v.quantity_available) := by
  unfold get_fund_items
  dsimp only
  constructor
  · exact gfi_filterMap_true_eq _ cat
  · exact gfi_mem_true _ cat

theorem c9_discrepancies_only_witness :
    (get_fund_items demoStore demoCatalog none none true =
      (get_fund_items demoStore demoCatalog none none false).filter
        hasDiscrepancy ∧
    ∀ v ∈ get_fund_items demoStore demoCatalog none none true,
      ∃ a, v.quantity_actual = some a ∧ a ≠ v.quantity_available ∧
        v.discrepancy = some (a - v.quantity_available)) :=
  c9_discrepancies_only demoStore demoCatalog none none

/-- Claim C10: when the storage layer fails, `get_fund_items` and
`get_movements` swallow the error and return an empty list — exactly what
they return on a genuinely empty store, so the caller cannot tell a query
error from an empty result set. -/
theorem c10_errors_return_empty (e : String) (cat : Catalog)
    (company_id fund_item_id : Option Nat)
    (item_type movement_type : Option String)
    (show_discrepancies_only : Bool) (limit : Nat) :
    get_fund_items_catching (Except.error e) cat company_id item_type
      show_discrepancies_only = [] ∧
    get_movements_catching (Except.error e) fund_item_id movement_type
      limit = [] ∧
    get_fund_items_catching (Except.error e) cat company_id item_type
        show_discrepancies_only =
      get_fund_items_catching (Except.ok emptyStore) cat company_id item_type
        show_discrepancies_only ∧
    get_movements_catching (Except.error e) fund_item_id movement_type
        limit =
      get_movements_catching (Except.ok emptyStore) fund_item_id
        movement_type limit := by
  refine ⟨rfl, rfl, ?_, ?_⟩
  · show ([] : List FundItemView) = _
    unfold get_fund_items_catching get_fund_items emptyStore
    cases company_id <;> cases item_type <;>
      simp
  · show ([] : List MovementView) = _
    unfold get_movements_catching get_movements emptyStore
    cases fund_item_id <;> cases movement_type <;>
      simp [List.insertionSort]

end SD

/-! ## Claim C3 -/

namespace SD

theorem replay_append_one (c : Int × Int)
    (l : List ReplacementFundMovement) (m : ReplacementFundMovement) :
    replay c (l ++ [m]) = applyMovement (replay c l) m := by
  unfold replay
  rw [List.foldl_append]
  rfl

/-- The counter effect of a successful ledger branch coincides with
replaying the movement row that the branch logs. -/
theorem applyLedgerBranch_counters {item : ReplacementFund} {ty : String}
    {q : Int} {mutated : ReplacementFund}
    (h : applyLedgerBranch item ty q = some mutated)
    {m : ReplacementFundMovement} (hty : m.movement_type = ty)
    (hq : m.quantity = q) :
    (mutated.quantity_available, mutated.quantity_reserved) =
      applyMovement (item.quantity_available, item.quantity_reserved) m := by
  subst hty
  subst hq
  unfold applyLedgerBranch at h
  unfold applyMovement
  split_ifs at h <;>
    first
      | exact Option.noConfusion h
      | (injection h with h
         subst h
         simp_all)

end SD

namespace SD

/-- One mutating call preserves the audit invariant: the counters of every
fund item equal the replay of its movement history, the history stays
chronologically sorted, and its length grows by one exactly when the call
succeeds and addresses that item. -/
theorem runOp_audit_step (st : FundStore) (o : FundOp) (i : Nat)
    (c0 : Int × Int) (hWF : clockBound st)
    (hc : countersOf st i = some (replay c0 (movementsFor st i)))
    (hp : List.Pairwise createdLt (movementsFor st i)) :
    clockBound (runOp st o).2 ∧
    countersOf (runOp st o).2 i =
      some (replay c0 (movementsFor (runOp st o).2 i)) ∧
    List.Pairwise createdLt (movementsFor (runOp st o).2 i) ∧
    (movementsFor (runOp st o).2 i).length =
      (movementsFor st i).length +
        (if (runOp st o).1 = true ∧ opTarget o = i then 1 else 0) := by
  cases o with
  | ledger j ty q u t c =>
    simp only [runOp, opTarget]
    cases hfind : findItem st.items j with
    | none =>
      simp only [perform_operation_not_found hfind]
      refine ⟨hWF, hc, hp, ?_⟩
      simp
    | some item =>
      cases hbr : applyLedgerBranch item ty q with
      | none =>
        simp only [perform_operation_reject hfind hbr]
        refine ⟨hWF, hc, hp, ?_⟩
        simp
      | some mutated =>
        simp only [perform_operation_success hfind hbr]
        have hv2 : ReplacementFund.id { mutated with updated_at := st.clock } = j := by
          have h := (applyLedgerBranch_id hbr).trans (findItem_id hfind)
          exact h
        refine ⟨?_, ?_, ?_, ?_⟩
        · intro x hx
          dsimp only at hx ⊢
          rcases List.mem_append.mp hx with h1 | h1
          · exact Nat.lt_succ_of_lt (hWF x h1)
          · rw [List.mem_singleton] at h1
            subst h1
            exact Nat.lt_succ_self _
        · by_cases hji : j = i
          · subst hji
            have hmv : movementsFor
                { items := updateItem st.items j { mutated with updated_at := st.clock },
                  movements := st.movements ++ [ledgerMovement st j ty q u t c],
                  next_movement_id := st.next_movement_id + 1,
                  clock := st.clock + 1 } j =
                movementsFor st j ++ [ledgerMovement st j ty q u t c] := by
              unfold movementsFor
              dsimp only
              rw [List.filter_append]
              simp [ledgerMovement]
            rw [hmv, replay_append_one]
            have hrep : replay c0 (movementsFor st j) =
                (item.quantity_available, item.quantity_reserved) :=
              (Option.some.inj ((countersOf_eq hfind).symm.trans hc)).symm
            rw [hrep]
            have hcounters : (mutated.quantity_available, mutated.quantity_reserved) =
                applyMovement (item.quantity_available, item.quantity_reserved)
                  (ledgerMovement st j ty q u t c) :=
              applyLedgerBranch_counters hbr rfl rfl
            unfold countersOf
            dsimp only
            rw [findItem_updateItem_self st.items j
              { mutated with updated_at := st.clock } hv2, hfind]
            exact congrArg some hcounters
          · have hmv : movementsFor
                { items := updateItem st.items j { mutated with updated_at := st.clock },
                  movements := st.movements ++ [ledgerMovement st j ty q u t c],
                  next_movement_id := st.next_movement_id + 1,
                  clock := st.clock + 1 } i =
                movementsFor st i := by
              unfold movementsFor
              dsimp only
              rw [List.filter_append]
              simp [ledgerMovement, hji]
            have hcO : countersOf
                { items := updateItem st.items j { mutated with updated_at := st.clock },
                  movements := st.movements ++ [ledgerMovement st j ty q u t c],
                  next_movement_id := st.next_movement_id + 1,
                  clock := st.clock + 1 } i = countersOf st i := by
              unfold countersOf
              dsimp only
              rw [findItem_updateItem_ne st.items j i
                { mutated with updated_at := st.clock } hv2
                (fun h => hji h.symm)]
            rw [hmv, hcO]
            exact hc
        · by_cases hji : j = i
          · subst hji
            have hmv : movementsFor
                { items := updateItem st.items j { mutated with updated_at := st.clock },
                  movements := st.movements ++ [ledgerMovement st j ty q u t c],
                  next_movement_id := st.next_movement_id + 1,
                  clock := st.clock + 1 } j =
                movementsFor st j ++ [ledgerMovement st j ty q u t c] := by
              unfold movementsFor
              dsimp only
              rw [List.filter_append]
              simp [ledgerMovement]
            rw [hmv]
            refine List.pairwise_append.mpr ⟨hp, List.pairwise_singleton _ _, ?_⟩
            intro x hx y hy
            rw [List.mem_singleton] at hy
            subst hy
            have hxm : x ∈ st.movements := List.mem_of_mem_filter hx
            exact hWF x hxm
          · have hmv : movementsFor
                { items := updateItem st.items j { mutated with updated_at := st.clock },
                  movements := st.movements ++ [ledgerMovement st j ty q u t c],
                  next_movement_id := st.next_movement_id + 1,
                  clock := st.clock + 1 } i =
                movementsFor st i := by
              unfold movementsFor
              dsimp only
              rw [List.filter_append]
              simp [ledgerMovement, hji]
            rw [hmv]
            exact hp
        · by_cases hji : j = i
          · subst hji
            have hmv : movementsFor
                { items := updateItem st.items j { mutated with updated_at := st.clock },
                  movements := st.movements ++ [ledgerMovement st j ty q u t c],
                  next_movement_id := st.next_movement_id + 1,
                  clock := st.clock + 1 } j =
                movementsFor st j ++ [ledgerMovement st j ty q u t c] := by
              unfold movementsFor
              dsimp only
              rw [List.filter_append]
              simp [ledgerMovement]
            rw [hmv]
            simp
          · have hmv : movementsFor
                { items := updateItem st.items j { mutated with updated_at := st.clock },
                  movements := st.movements ++ [ledgerMovement st j ty q u t c],
                  next_movement_id := st.next_movement_id + 1,
                  clock := st.clock + 1 } i =
                movementsFor st i := by
              unfold movementsFor
              dsimp only
              rw [List.filter_append]
              simp [ledgerMovement, hji]
            rw [hmv]
            simp [hji]
  | inventory j a u c corr =>
    simp only [runOp, opTarget]
    cases hfind : findItem st.items j with
    | none =>
      simp only [perform_inventory_not_found hfind]
      refine ⟨hWF, hc, hp, ?_⟩
      simp
    | some item =>
      simp only [perform_inventory_success hfind]
      have hv3 : ReplacementFund.id
          { item with
            quantity_actual := some a,
            last_inventory_date := some st.clock,
            quantity_available := if corr then a else item.quantity_available,
            updated_at := st.clock } = j := by
        have h := findItem_id hfind
        exact h
      refine ⟨?_, ?_, ?_, ?_⟩
      · intro x hx
        dsimp only at hx ⊢
        rcases List.mem_append.mp hx with h1 | h1
        · exact Nat.lt_succ_of_lt (hWF x h1)
        · rw [List.mem_singleton] at h1
          subst h1
          exact Nat.lt_succ_self _
      · by_cases hji : j = i
        · subst hji
          have hmv : movementsFor
              { items := updateItem st.items j
                  { item with
                    quantity_actual := some a,
                    last_inventory_date := some st.clock,
                    quantity_available := if corr then a else item.quantity_available,
                    updated_at := st.clock },
                movements := st.movements ++
                  [{ id := st.next_movement_id, fund_item_id := j,
                     movement_type := "INVENTORY", ticket_id := none,
                     quantity := a,
                     quantity_before := some item.quantity_available,
                     quantity_after := some (if corr then a else item.quantity_available),
                     comment := some (pyOr c
                       (defaultInventoryComment a item.quantity_available)),
                     user_id := u, created_at := st.clock }],
                next_movement_id := st.next_movement_id + 1,
                clock := st.clock + 1 } j =
              movementsFor st j ++
                [{ id := st.next_movement_id, fund_item_id := j,
                   movement_type := "INVENTORY", ticket_id := none,
                   quantity := a,
                   quantity_before := some item.quantity_available,
                   quantity_after := some (if corr then a else item.quantity_available),
                   comment := some (pyOr c
                     (defaultInventoryComment a item.quantity_available)),
                   user_id := u, created_at := st.clock }] := by
            unfold movementsFor
            dsimp only
            rw [List.filter_append]
            simp
          rw [hmv, replay_append_one]
          have hrep : replay c0 (movementsFor st j) =
              (item.quantity_available, item.quantity_reserved) :=
            (Option.some.inj ((countersOf_eq hfind).symm.trans hc)).symm
          rw [hrep]
          have hcounters : ((if corr then a else item.quantity_available),
              item.quantity_reserved) =
              applyMovement (item.quantity_available, item.quantity_reserved)
                { id := st.next_movement_id, fund_item_id := j,
                  movement_type := "INVENTORY", ticket_id := none,
                  quantity := a,
                  quantity_before := some item.quantity_available,
                  quantity_after := some (if corr then a else item.quantity_available),
                  comment := some (pyOr c
                    (defaultInventoryComment a item.quantity_available)),
                  user_id := u, created_at := st.clock } := by
            simp [applyMovement]
          unfold countersOf
          dsimp only
          rw [findItem_updateItem_self st.items j
            { item with
              quantity_actual := some a,
              last_inventory_date := some st.clock,
              quantity_available := if corr then a else item.quantity_available,
              updated_at := st.clock } hv3, hfind]
          exact congrArg some hcounters
        · have hmv : movementsFor
              { items := updateItem st.items j
                  { item with
                    quantity_actual := some a,
                    last_inventory_date := some st.clock,
                    quantity_available := if corr then a else item.quantity_available,
                    updated_at := st.clock },
                movements := st.movements ++
                  [{ id := st.next_movement_id, fund_item_id := j,
                     movement_type := "INVENTORY", ticket_id := none,
                     quantity := a,
                     quantity_before := some item.quantity_available,
                     quantity_after := some (if corr then a else item.quantity_available),
                     comment := some (pyOr c
                       (defaultInventoryComment a item.quantity_available)),
                     user_id := u, created_at := st.clock }],
                next_movement_id := st.next_movement_id + 1,
                clock := st.clock + 1 } i =
              movementsFor st i := by
            unfold movementsFor
            dsimp only
            rw [List.filter_append]
            simp [hji]
          have hcO : countersOf
              { items := updateItem st.items j
                  { item with
                    quantity_actual := some a,
                    last_inventory_date := some st.clock,
                    quantity_available := if corr then a else item.quantity_available,
                    updated_at := st.clock },
                movements := st.movements ++
                  [{ id := st.next_movement_id, fund_item_id := j,
                     movement_type := "INVENTORY", ticket_id := none,
                     quantity := a,
                     quantity_before := some item.quantity_available,
                     quantity_after := some (if corr then a else item.quantity_available),
                     comment := some (pyOr c
                       (defaultInventoryComment a item.quantity_available)),
                     user_id := u, created_at := st.clock }],
                next_movement_id := st.next_movement_id + 1,
                clock := st.clock + 1 } i = countersOf st i := by
            unfold countersOf
            dsimp only
            rw [findItem_updateItem_ne st.items j i
              { item with
                quantity_actual := some a,
                last_inventory_date := some st.clock,
                quantity_available := if corr then a else item.quantity_available,
                updated_at := st.clock } hv3 (fun h => hji h.symm)]
          rw [hmv, hcO]
          exact hc
      · by_cases hji : j = i
        · subst hji
          have hmv : movementsFor
              { items := updateItem st.items j
                  { item with
                    quantity_actual := some a,
                    last_inventory_date := some st.clock,
                    quantity_available := if corr then a else item.quantity_available,
                    updated_at := st.clock },
                movements := st.movements ++
                  [{ id := st.next_movement_id, fund_item_id := j,
                     movement_type := "INVENTORY", ticket_id := none,
                     quantity := a,
                     quantity_before := some item.quantity_available,
                     quantity_after := some (if corr then a else item.quantity_available),
                     comment := some (pyOr c
                       (defaultInventoryComment a item.quantity_available)),
                     user_id := u, created_at := st.clock }],
                next_movement_id := st.next_movement_id + 1,
                clock := st.clock + 1 } j =
              movementsFor st j ++
                [{ id := st.next_movement_id, fund_item_id := j,
                   movement_type := "INVENTORY", ticket_id := none,
                   quantity := a,
                   quantity_before := some item.quantity_available,
                   quantity_after := some (if corr then a else item.quantity_available),
                   comment := some (pyOr c
                     (defaultInventoryComment a item.quantity_available)),
                   user_id := u, created_at := st.clock }] := by
            unfold movementsFor
            dsimp only
            rw [List.filter_append]
            simp
          rw [hmv]
          refine List.pairwise_append.mpr ⟨hp, List.pairwise_singleton _ _, ?_⟩
          intro x hx y hy
          rw [List.mem_singleton] at hy
          subst hy
          exact hWF x (List.mem_of_mem_filter hx)
        · have hmv : movementsFor
              { items := updateItem st.items j
                  { item with
                    quantity_actual := some a,
                    last_inventory_date := some st.clock,
                    quantity_available := if corr then a else item.quantity_available,
                    updated_at := st.clock },
                movements := st.movements ++
                  [{ id := st.next_movement_id, fund_item_id := j,
                     movement_type := "INVENTORY", ticket_id := none,
                     quantity := a,
                     quantity_before := some item.quantity_available,
                     quantity_after := some (if corr then a else item.quantity_available),
                     comment := some (pyOr c
                       (defaultInventoryComment a item.quantity_available)),
                     user_id := u, created_at := st.clock }],
                next_movement_id := st.next_movement_id + 1,
                clock := st.clock + 1 } i =
              movementsFor st i := by
            unfold movementsFor
            dsimp only
            rw [List.filter_append]
            simp [hji]
          rw [hmv]
          exact hp
      · by_cases hji : j = i
        · subst hji
          have hmv : movementsFor
              { items := updateItem st.items j
                  { item with
                    quantity_actual := some a,
                    last_inventory_date := some st.clock,
                    quantity_available := if corr then a else item.quantity_available,
                    updated_at := st.clock },
                movements := st.movements ++
                  [{ id := st.next_movement_id, fund_item_id := j,
                     movement_type := "INVENTORY", ticket_id := none,
                     quantity := a,
                     quantity_before := some item.quantity_available,
                     quantity_after := some (if corr then a else item.quantity_available),
                     comment := some (pyOr c
                       (defaultInventoryComment a item.quantity_available)),
                     user_id := u, created_at := st.clock }],
                next_movement_id := st.next_movement_id + 1,
                clock := st.clock + 1 } j =
              movementsFor st j ++
                [{ id := st.next_movement_id, fund_item_id := j,
                   movement_type := "INVENTORY", ticket_id := none,
                   quantity := a,
                   quantity_before := some item.quantity_available,
                   quantity_after := some (if corr then a else item.quantity_available),
                   comment := some (pyOr c
                     (defaultInventoryComment a item.quantity_available)),
                   user_id := u, created_at := st.clock }] := by
            unfold movementsFor
            dsimp only
            rw [List.filter_append]
            simp
          rw [hmv]
          simp
        · have hmv : movementsFor
              { items := updateItem st.items j
                  { item with
                    quantity_actual := some a,
                    last_inventory_date := some st.clock,
                    quantity_available := if corr then a else item.quantity_available,
                    updated_at := st.clock },
                movements := st.movements ++
                  [{ id := st.next_movement_id, fund_item_id := j,
                     movement_type := "INVENTORY", ticket_id := none,
                     quantity := a,
                     quantity_before := some item.quantity_available,
                     quantity_after := some (if corr then a else item.quantity_available),
                     comment := some (pyOr c
                       (defaultInventoryComment a item.quantity_available)),
                     user_id := u, created_at := st.clock }],
                next_movement_id := st.next_movement_id + 1,
                clock := st.clock + 1 } i =
              movementsFor st i := by
            unfold movementsFor
            dsimp only
            rw [List.filter_append]
            simp [hji]
          rw [hmv]
          simp [hji]

end SD

namespace SD

/-- Running a whole sequence of mutating calls preserves the audit
invariant, and the movement history of an item grows by exactly the number
of successful calls addressing it. -/
theorem runOps_audit (ops : List FundOp) :
    ∀ (st : FundStore) (i : Nat) (c0 : Int × Int),
      clockBound st →
      countersOf st i = some (replay c0 (movementsFor st i)) →
      List.Pairwise createdLt (movementsFor st i) →
      clockBound (runOps st ops) ∧
      countersOf (runOps st ops) i =
        some (replay c0 (movementsFor (runOps st ops) i)) ∧
      List.Pairwise createdLt (movementsFor (runOps st ops) i) ∧
      (movementsFor (runOps st ops) i).length =
        (movementsFor st i).length + numSuccessFor st i ops := by
  induction ops with
  | nil =>
    intro st i c0 hWF hc hp
    exact ⟨hWF, hc, hp, by simp [runOps, numSuccessFor]⟩
  | cons o rest ih =>
    intro st i c0 hWF hc hp
    obtain ⟨hWF1, hc1, hp1, hlen1⟩ := runOp_audit_step st o i c0 hWF hc hp
    obtain ⟨hWF2, hc2, hp2, hlen2⟩ := ih (runOp st o).2 i c0 hWF1 hc1 hp1
    refine ⟨hWF2, hc2, hp2, ?_⟩
    show (movementsFor (runOps (runOp st o).2 rest) i).length =
      (movementsFor st i).length + numSuccessFor st i (o :: rest)
    rw [hlen2, hlen1, numSuccessFor]
    omega

/-- Claim C3: starting from a store whose history for a given fund item is
empty (and whose timestamps are in the clock's past), any sequence of
`perform_operation`/`perform_inventory` calls leaves: (a) exactly as many
movement rows for that item as there were successful mutating calls
addressing it — one row per successful call, none per failed call; (b) that
history strictly ordered by creation time, so its list order is the
`(created_at, id)` audit order; and (c) current counters equal to the
replay of that history from the initial counters. -/
theorem c3_audit_trail (st0 : FundStore) (ops : List FundOp) (i : Nat)
    (A R : Int) (hWF : clockBound st0)
    (h0 : countersOf st0 i = some (A, R))
    (hm0 : movementsFor st0 i = []) :
    countersOf (runOps st0 ops) i =
      some (replay (A, R) (movementsFor (runOps st0 ops) i)) ∧
    List.Pairwise createdLt (movementsFor (runOps st0 ops) i) ∧
    (movementsFor (runOps st0 ops) i).length = numSuccessFor st0 i ops := by
  obtain ⟨_, hc, hp, hlen⟩ := runOps_audit ops st0 i (A, R) hWF
    (by rw [hm0]; exact h0) (by rw [hm0]; exact List.Pairwise.nil)
  refine ⟨hc, hp, ?_⟩
  rw [hlen, hm0]
  simp

theorem c3_audit_trail_witness :
    countersOf (runOps demoStore demoOps) 1 =
      some (replay (5, 2) (movementsFor (runOps demoStore demoOps) 1)) ∧
    List.Pairwise createdLt (movementsFor (runOps demoStore demoOps) 1) ∧
    (movementsFor (runOps demoStore demoOps) 1).length =
      numSuccessFor demoStore 1 demoOps :=
  c3_audit_trail demoStore demoOps 1 5 2 (by decide) (by decide) (by decide)

end SD
